import Mathlib

/-!
Verification of the avionics fault-simulator core (`avionics_monitor.py`).

Shallow embedding conventions:
* Python floats are modelled as rationals (`ℚ`); numeric literals such as
  `0.02`, `0.1`, `1e-6` become the corresponding rationals.
* Randomness (`random.gauss`, `random.random`, `random.choice`) is made
  explicit: every call to `step` receives a `RandInput` holding the draws
  that the Python code would make on that tick.
* `numpy` population statistics: `np.mean` becomes `meanQ`, and the two
  comparisons of `np.std recent` against a threshold `c` are embedded as
  decidable comparisons on the (rational) population variance, using
  `std xs < c ↔ 0 < c ∧ var xs < c ^ 2` and
  `std xs > c ↔ c < 0 ∨ c ^ 2 < var xs` (since `std = sqrt var ≥ 0`).
  The lemmas `stdLt_iff_sqrt_lt` and `stdGt_iff_lt_sqrt` below prove these
  encodings equivalent to the real square-root comparisons.
* The CSV log file is modelled as `Option (List Row)`: `none` means the
  file `fault_log.csv` does not exist, `some rows` is its list of rows.
* The GUI shell (tkinter widgets, matplotlib plotting) is out of scope; of
  the application class only the core effects of `apply_fault`,
  `run_bite_all`, the log-file pre-creation done in `__init__`, and the
  per-tick classify-and-log step of `update_loop` are modelled.
-/

namespace Avionics

/-- A CSV row, as the list of its fields. -/
abbrev Row := List String

/-- The header row of `append_log_csv`. -/
def csvHeader : Row :=
  ["timestamp", "sensor_id", "sensor_name", "code", "description",
   "severity", "value", "details"]

/-- `append_log_csv(row)`: opens `LOG_CSV` in append mode (creating it when
absent), writes the header first iff the file did not exist, then the row. -/
def append_log_csv (file : Option (List Row)) (row : Row) : Option (List Row) :=
  match file with
  | none => some [csvHeader, row]
  | some rows => some (rows ++ [row])

/-- The log-file part of `AvionicsMonitorApp.__init__` ("Ensure log file
exists"): when `LOG_CSV` does not exist it is created empty (opened with
mode "w" and an empty string written). -/
def ensure_log_file (file : Option (List Row)) : Option (List Row) :=
  match file with
  | none => some []
  | some rows => some rows

/-- Number of header rows present in the log file. -/
def headerCount (file : Option (List Row)) : ℕ :=
  match file with
  | none => 0
  | some rows => rows.countP (· == csvHeader)

/-- An entry of the `ERROR_CODES` table: description, severity,
recommendation. -/
structure CodeInfo where
  desc : String
  severity : String
  recommend : String
deriving DecidableEq

/-- `ERROR_CODES.get(code, default)`: the static fault catalog, total with
the defensive "Unknown" fallback used at the call sites. -/
def error_codes_get (code : String) : CodeInfo :=
  if code = "E01" then ⟨"Sensor Out-of-Range", "HIGH", "Replace sensor or verify wiring."⟩
  else if code = "E02" then ⟨"Intermittent Signal", "MEDIUM", "Inspect connectors; run continuity test."⟩
  else if code = "E03" then ⟨"Stuck at Value", "HIGH", "Replace sensor; check power rails."⟩
  else if code = "E04" then ⟨"Drift Detected", "LOW", "Calibrate sensor; monitor for progression."⟩
  else if code = "E05" then ⟨"Noisy Signal", "LOW", "Check shielding; apply filtering."⟩
  else if code = "OK" then ⟨"All OK", "NONE", "No action required."⟩
  else ⟨"Unknown", "UNKNOWN", ""⟩

/-- A sensor configuration entry of the `SENSORS` roster. -/
structure SensorConfig where
  id : String
  name : String
  nominal : ℚ
  tol : ℚ

/-- The random draws a single `step` call may consume:
`noise = random.gauss(0, noise_level)`, `u = random.random()`,
`spikeUp` the outcome of `random.choice([5, -5])` (`true` for `5`), and
`extraNoise = random.gauss(0, 3 * noise_level)`. -/
structure RandInput where
  noise : ℚ
  u : ℚ
  spikeUp : Bool
  extraNoise : ℚ

/-- The mutable state of a `SensorSimulator` instance. -/
structure SensorState where
  id : String
  name : String
  nominal : ℚ
  tol : ℚ
  time : ℚ
  value : ℚ
  noise_level : ℚ
  forced_fault : Option String
  drift_rate : ℚ
  stuck_value : Option ℚ
  last_values : List ℚ

/-- `SensorSimulator.__init__(config)`. -/
def initSensor (cfg : SensorConfig) : SensorState :=
  { id := cfg.id
    name := cfg.name
    nominal := cfg.nominal
    tol := cfg.tol
    time := 0
    value := cfg.nominal
    noise_level := 5 / 1000 * |cfg.nominal| + 1 / 10
    forced_fault := none
    drift_rate := 0
    stuck_value := none
    last_values := [] }

/-- `deque(maxlen=10).append(v)`: push `v` on the right, evicting from the
left whatever exceeds capacity 10. -/
def pushWin (w : List ℚ) (v : ℚ) : List ℚ :=
  (w ++ [v]).drop ((w ++ [v]).length - 10)

/-- `SensorSimulator.step(dt)`: advance the clock, honour a latched stuck
value, otherwise produce nominal + drift·time + noise and apply the active
forced-fault perturbation; always append the emitted value to
`last_values` and return it (paired here with the successor state). -/
def SensorState.step (s : SensorState) (dt : ℚ) (r : RandInput) : ℚ × SensorState :=
  let t := s.time + dt
  match s.stuck_value with
  | some sv =>
      (sv, { s with time := t, value := sv, last_values := pushWin s.last_values sv })
  | none =>
      let v := s.nominal + s.drift_rate * t + r.noise
      if s.forced_fault = some "spike" then
        let v2 := if r.u < 2 / 100 then v + (if r.spikeUp then (5 : ℚ) else -5) * s.tol else v
        (v2, { s with time := t, value := v2, last_values := pushWin s.last_values v2 })
      else if s.forced_fault = some "noisy" then
        let v2 := v + r.extraNoise
        (v2, { s with time := t, value := v2, last_values := pushWin s.last_values v2 })
      else if s.forced_fault = some "drift" then
        (v, { s with time := t, value := v, drift_rate := 1 / 10 * s.tol, last_values := pushWin s.last_values v })
      else if s.forced_fault = some "stuck" then
        (v, { s with time := t, value := v, stuck_value := some s.nominal, last_values := pushWin s.last_values v })
      else if s.forced_fault = some "out_of_range" then
        let v2 := s.nominal + 10 * s.tol
        (v2, { s with time := t, value := v2, last_values := pushWin s.last_values v2 })
      else
        (v, { s with time := t, value := v, last_values := pushWin s.last_values v })

/-- `SensorSimulator.reset_faults()`. -/
def SensorState.reset_faults (s : SensorState) : SensorState :=
  { s with forced_fault := none, drift_rate := 0, stuck_value := none }

/-- The effect on the selected sensor of `AvionicsMonitorApp.apply_fault`:
fault type "none" calls `reset_faults()`, any other sets `forced_fault`. -/
def apply_fault (s : SensorState) (fault_type : String) : SensorState :=
  if fault_type = "none" then s.reset_faults
  else { s with forced_fault := some fault_type }

/-- `np.mean` over a rational list (population mean). -/
def meanQ (xs : List ℚ) : ℚ := xs.sum / xs.length

/-- Population variance, i.e. the square of `np.std` (ddof = 0). -/
def varianceQ (xs : List ℚ) : ℚ :=
  (xs.map (fun x => (x - meanQ xs) ^ 2)).sum / xs.length

/-- `np.std xs < c`, encoded on the variance: since the standard deviation
is the nonnegative square root of `varianceQ xs`, the comparison holds iff
`0 < c` and `varianceQ xs < c ^ 2` (see `stdLt_iff_sqrt_lt`). -/
def stdLt (xs : List ℚ) (c : ℚ) : Prop := 0 < c ∧ varianceQ xs < c ^ 2

/-- `np.std xs > c`, encoded on the variance: holds iff `c < 0` or
`c ^ 2 < varianceQ xs` (see `stdGt_iff_lt_sqrt`). -/
def stdGt (xs : List ℚ) (c : ℚ) : Prop := c < 0 ∨ c ^ 2 < varianceQ xs

instance (xs : List ℚ) (c : ℚ) : Decidable (stdLt xs c) :=
  inferInstanceAs (Decidable (_ ∧ _))

instance (xs : List ℚ) (c : ℚ) : Decidable (stdGt xs c) :=
  inferInstanceAs (Decidable (_ ∨ _))

/-- Stand-in for Python float formatting with two decimals (the claims do
not depend on the rendered digits, only on the literal text around them). -/
def pyFmt2 (q : ℚ) : String := toString q

/-- Stand-in for Python float formatting with three decimals. -/
def pyFmt3 (q : ℚ) : String := toString q

/-- Stand-in for Python default float rendering. -/
def pyFmtNum (q : ℚ) : String := toString q

/-- Stand-in for rendering `np.std(recent)` with two decimals in the E05
message (the true standard deviation is irrational in general; no claim
depends on this text). -/
def pyFmtStd (xs : List ℚ) : String := toString (varianceQ xs)

/-- The window actually used by `bite_check`: `recent = list(last_values)`,
replaced by `[value]` when empty. -/
def recentOf (s : SensorState) (value : ℚ) : List ℚ :=
  if s.last_values.isEmpty then [value] else s.last_values

/-- The check chain of `bite_check` as a function of nominal, tolerance,
the (already normalised, nonempty) window and the latest value. -/
def bite_core (nominal tol : ℚ) (recent : List ℚ) (value : ℚ) : String × String :=
  if 5 * tol < |value - nominal| then
    ("E01", "Value " ++ pyFmt2 value ++ " outside safe range (nom " ++ pyFmtNum nominal ++ ")")
  else if 6 ≤ recent.length ∧ stdLt recent (1 / 1000000) then
    ("E03", "No variation in readings â€” possible stuck sensor")
  else if stdGt recent (1 / 2 * tol) then
    ("E05", "High noise (std=" ++ pyFmtStd recent ++ ")")
  else if 3 / 2 * tol < |meanQ recent - nominal| then
    ("E04", "Mean shifted by " ++ pyFmt2 (meanQ recent - nominal) ++ " from nominal")
  else if ∃ p ∈ recent.zip recent.tail, 2 * tol < |p.2 - p.1| then
    ("E02", "Intermittent large deltas observed")
  else
    ("OK", "Passed BITE")

/-- `bite_check(sensor, value)`. -/
def bite_check (s : SensorState) (value : ℚ) : String × String :=
  bite_core s.nominal s.tol (recentOf s value) value

/-- Iterate `step` over a list of `(dt, random draws)` inputs, returning
the last emitted value and the final state. -/
def runSteps (s : SensorState) (inputs : List (ℚ × RandInput)) : ℚ × SensorState :=
  inputs.foldl (fun p i => p.2.step i.1 i.2) (s.value, s)

/-- The row built by `AvionicsMonitorApp.log_bite` and handed to
`append_log_csv`. -/
def mkRow (ts : String) (s : SensorState) (code details : String) (value : ℚ) : Row :=
  [ts, s.id, s.name, code, (error_codes_get code).desc,
   (error_codes_get code).severity, pyFmt3 value, details]

/-- The CSV rows appended for one sensor on one `update_loop` tick: the
sensor is stepped, `bite_check` runs on the stepped sensor and the emitted
value, and `log_bite` appends one row iff the code is not "OK". -/
def tick_sensor_log (ts : String) (s : SensorState) (dt : ℚ) (r : RandInput) : List Row :=
  let res := s.step dt r
  let cd := bite_check res.2 res.1
  if cd.1 ≠ "OK" then [mkRow ts res.2 cd.1 cd.2 res.1] else []

/-- The CSV rows appended for one sensor by `AvionicsMonitorApp.run_bite_all`:
with an empty data buffer only a GUI message is shown (no CSV append);
otherwise `bite_check` runs on the latest buffered value and `log_bite`
appends one row whatever the resulting code is. -/
def run_bite_one (ts : String) (s : SensorState) (buff : List (ℚ × ℚ)) : List Row :=
  match buff.getLast? with
  | none => []
  | some tv =>
      let cd := bite_check s tv.2
      [mkRow ts s cd.1 cd.2 tv.2]

/-! ## Concrete sensors and random draws used by witnesses -/

/-- The `S3` entry of the `SENSORS` roster. -/
def gyroCfg : SensorConfig := ⟨"S3", "Gyro (pitch)", 0, 2⟩

/-- The `S1` entry of the `SENSORS` roster. -/
def altCfg : SensorConfig := ⟨"S1", "Altitude Sensor", 10000, 200⟩

/-- Random draws with a zero Gaussian sample. -/
def noNoise : RandInput := ⟨0, 1, true, 0⟩

/-- Random draws with Gaussian sample 1. -/
def unitNoise : RandInput := ⟨1, 1, true, 0⟩

/-! ## Helper lemmas -/

theorem varianceQ_nonneg (xs : List ℚ) : 0 ≤ varianceQ xs := by
  unfold varianceQ
  apply div_nonneg
  · apply List.sum_nonneg
    intro x hx
    simp only [List.mem_map] at hx
    obtain ⟨y, _, rfl⟩ := hx
    positivity
  · positivity

/-- The variance encoding of `np.std xs < c` agrees with the real
square-root comparison. -/
theorem stdLt_iff_sqrt_lt (xs : List ℚ) (c : ℚ) :
    stdLt xs c ↔ Real.sqrt (varianceQ xs : ℝ) < (c : ℝ) := by
  constructor
  · rintro ⟨hc, hv⟩
    rw [show ((c : ℝ)) = Real.sqrt ((c : ℝ) ^ 2) by
      rw [Real.sqrt_sq (by exact_mod_cast hc.le)]]
    apply Real.sqrt_lt_sqrt (by exact_mod_cast varianceQ_nonneg xs)
    exact_mod_cast hv
  · intro h
    have hc : (0 : ℝ) < c := lt_of_le_of_lt (Real.sqrt_nonneg _) h
    refine ⟨by exact_mod_cast hc, ?_⟩
    have := (Real.sqrt_lt' hc).mp h
    push_cast at this
    exact_mod_cast this

/-- The variance encoding of `np.std xs > c` agrees with the real
square-root comparison. -/
theorem stdGt_iff_lt_sqrt (xs : List ℚ) (c : ℚ) :
    stdGt xs c ↔ (c : ℝ) < Real.sqrt (varianceQ xs : ℝ) := by
  constructor
  · rintro (hc | hv)
    · exact lt_of_lt_of_le (by exact_mod_cast hc) (Real.sqrt_nonneg _)
    · rcases lt_or_le c 0 with h | h
      · exact lt_of_lt_of_le (by exact_mod_cast h) (Real.sqrt_nonneg _)
      · apply (Real.lt_sqrt (by exact_mod_cast h)).mpr
        exact_mod_cast hv
  · intro h
    rcases lt_or_le c 0 with hc | hc
    · exact Or.inl hc
    · refine Or.inr ?_
      have := (Real.lt_sqrt (by exact_mod_cast hc)).mp h
      push_cast at this
      exact_mod_cast this

theorem meanQ_singleton (x : ℚ) : meanQ [x] = x := by
  simp [meanQ]

theorem varianceQ_singleton (x : ℚ) : varianceQ [x] = 0 := by
  simp [varianceQ, meanQ]

theorem meanQ_replicate (n : ℕ) (hn : n ≠ 0) (x : ℚ) :
    meanQ (List.replicate n x) = x := by
  rw [meanQ, List.sum_replicate, List.length_replicate, nsmul_eq_mul,
    mul_div_cancel_left₀ x (show ((n : ℚ)) ≠ 0 by exact_mod_cast hn)]

theorem varianceQ_replicate (n : ℕ) (x : ℚ) :
    varianceQ (List.replicate n x) = 0 := by
  rcases Nat.eq_zero_or_pos n with rfl | hn
  · simp [varianceQ]
  · rw [varianceQ, List.map_replicate, meanQ_replicate n (by omega) x]
    simp

/-! ## Claim C1 -/

/-- Claim C1: for every sensor and every latest value `v` with
`|v - nominal| > 5 * tol`, `bite_check` returns code E01 regardless of the
contents of the recent window — the out-of-range check strictly precedes
every other check. -/
theorem bite_check_out_of_range_first (s : SensorState) (v : ℚ)
    (h : 5 * s.tol < |v - s.nominal|) : (bite_check s v).1 = "E01" := by
  unfold bite_check bite_core
  rw [if_pos h]

/-- Witness for C1 at the gyro sensor with latest value 100. -/
theorem bite_check_out_of_range_first_witness :
    5 * (initSensor gyroCfg).tol < |(100 : ℚ) - (initSensor gyroCfg).nominal| ∧
    (bite_check (initSensor gyroCfg) 100).1 = "E01" := by
  have h : 5 * (initSensor gyroCfg).tol < |(100 : ℚ) - (initSensor gyroCfg).nominal| := by
    norm_num [initSensor, gyroCfg, abs_of_nonneg]
  exact ⟨h, bite_check_out_of_range_first _ _ h⟩

/-! ## Claim C2 -/

/-- Counterexample to C2 as stated: the fresh gyro sensor
(`nominal = 0`, `tol = 2`) has an empty window, the latest value 4
satisfies `|4 - 0| ≤ 5 * 2`, yet `bite_check` returns E04, not OK: with a
single-element window the drift check compares `|mean [v] - nominal| =
|v - nominal|` against `1.5 * tol`. -/
theorem bite_check_empty_window_e04 :
    (initSensor gyroCfg).last_values = [] ∧
    |(4 : ℚ) - (initSensor gyroCfg).nominal| ≤ 5 * (initSensor gyroCfg).tol ∧
    (bite_check (initSensor gyroCfg) 4).1 = "E04" := by
  refine ⟨rfl, by norm_num [initSensor, gyroCfg, abs_of_nonneg], ?_⟩
  have : recentOf (initSensor gyroCfg) 4 = [4] := by
    norm_num [recentOf, initSensor]
  rw [bite_check, this]
  rw [bite_core, if_neg (by norm_num [initSensor, gyroCfg, abs_of_nonneg]),
    if_neg (by norm_num), if_neg (by norm_num [stdGt, varianceQ, meanQ, initSensor, gyroCfg]),
    if_pos (by norm_num [meanQ, initSensor, gyroCfg, abs_of_nonneg])]

/-- Claim C2, amended: with an empty recent window `bite_check` behaves as
if the window were `[latest_value]`; in that degenerate case it returns OK
whenever `|v - nominal| ≤ 1.5 * tol` (not for the whole in-range band
`|v - nominal| ≤ 5 * tol` — the drift check can still fire, see the
counterexample). -/
theorem bite_check_empty_window (s : SensorState) (v : ℚ)
    (he : s.last_values = []) :
    bite_check s v = bite_check { s with last_values := [v] } v ∧
    (|v - s.nominal| ≤ 3 / 2 * s.tol → (bite_check s v).1 = "OK") := by
  have hr : recentOf s v = [v] := by simp [recentOf, he]
  constructor
  · unfold bite_check
    rw [hr]
    simp [recentOf]
  · intro h
    have ht : (0 : ℚ) ≤ s.tol := by nlinarith [abs_nonneg (v - s.nominal)]
    unfold bite_check bite_core
    rw [hr]
    rw [if_neg (by push_neg; linarith), if_neg (by simp),
      if_neg (by rw [stdGt, varianceQ_singleton]; push_neg
                 exact ⟨by linarith, by positivity⟩),
      if_neg (by rw [meanQ_singleton]; push_neg; linarith),
      if_neg (by simp)]

/-- Witness for the amended C2 at the altitude sensor with latest value
10100: the window is empty, the deviation 100 is within `1.5 * 200`, and
the classification is OK. -/
theorem bite_check_empty_window_witness :
    (initSensor altCfg).last_values = [] ∧
    |(10100 : ℚ) - (initSensor altCfg).nominal| ≤ 3 / 2 * (initSensor altCfg).tol ∧
    (bite_check (initSensor altCfg) 10100).1 = "OK" := by
  have hb : |(10100 : ℚ) - (initSensor altCfg).nominal| ≤ 3 / 2 * (initSensor altCfg).tol := by
    norm_num [initSensor, altCfg, abs_of_nonneg]
  exact ⟨rfl, hb, (bite_check_empty_window (initSensor altCfg) 10100 rfl).2 hb⟩

/-! ## Helper lemmas about `step` and the window -/

theorem step_value (s : SensorState) (dt : ℚ) (r : RandInput) :
    ((s.step dt r).2).value = (s.step dt r).1 := by
  unfold SensorState.step
  cases s.stuck_value <;> first | rfl | (dsimp only; split_ifs <;> rfl)

theorem step_window (s : SensorState) (dt : ℚ) (r : RandInput) :
    ((s.step dt r).2).last_values = pushWin s.last_values ((s.step dt r).1) := by
  unfold SensorState.step
  cases s.stuck_value <;> first | rfl | (dsimp only; split_ifs <;> rfl)

theorem step_nominal (s : SensorState) (dt : ℚ) (r : RandInput) :
    ((s.step dt r).2).nominal = s.nominal := by
  unfold SensorState.step
  cases s.stuck_value <;> first | rfl | (dsimp only; split_ifs <;> rfl)

theorem step_tol (s : SensorState) (dt : ℚ) (r : RandInput) :
    ((s.step dt r).2).tol = s.tol := by
  unfold SensorState.step
  cases s.stuck_value <;> first | rfl | (dsimp only; split_ifs <;> rfl)

theorem step_forced_fault (s : SensorState) (dt : ℚ) (r : RandInput) :
    ((s.step dt r).2).forced_fault = s.forced_fault := by
  unfold SensorState.step
  cases s.stuck_value <;> first | rfl | (dsimp only; split_ifs <;> rfl)

theorem step_time (s : SensorState) (dt : ℚ) (r : RandInput) :
    ((s.step dt r).2).time = s.time + dt := by
  unfold SensorState.step
  cases s.stuck_value <;> first | rfl | (dsimp only; split_ifs <;> rfl)

theorem pushWin_length (w : List ℚ) (v : ℚ) :
    (pushWin w v).length = min (w.length + 1) 10 := by
  simp [pushWin]
  omega

theorem pushWin_length_le (w : List ℚ) (v : ℚ) : (pushWin w v).length ≤ 10 := by
  rw [pushWin_length]
  omega

theorem pushWin_of_lt (w : List ℚ) (v : ℚ) (h : w.length < 10) :
    pushWin w v = w ++ [v] := by
  unfold pushWin
  rw [show (w ++ [v]).length - 10 = 0 by simp; omega, List.drop_zero]

theorem pushWin_of_full (w : List ℚ) (v : ℚ) (h : w.length = 10) :
    pushWin w v = w.tail ++ [v] := by
  unfold pushWin
  rw [show (w ++ [v]).length - 10 = 1 by simp [h],
    List.drop_append_of_le_length (by omega), List.drop_one]

theorem runSteps_nil (s : SensorState) : runSteps s [] = (s.value, s) := rfl

theorem runSteps_cons (s : SensorState) (i : ℚ × RandInput)
    (inputs : List (ℚ × RandInput)) :
    runSteps s (i :: inputs) = runSteps ((s.step i.1 i.2).2) inputs := by
  unfold runSteps
  rw [List.foldl_cons]
  congr 1
  rw [show s.step i.1 i.2 = ((s.step i.1 i.2).1, (s.step i.1 i.2).2) from rfl,
    ← step_value]

theorem runSteps_window_le (inputs : List (ℚ × RandInput)) :
    ∀ s : SensorState, s.last_values.length ≤ 10 →
      ((runSteps s inputs).2).last_values.length ≤ 10 := by
  induction inputs with
  | nil => intro s h; exact h
  | cons i is ih =>
      intro s _
      rw [runSteps_cons]
      exact ih _ (by rw [step_window]; exact pushWin_length_le _ _)

/-! ## Claim C9 -/

/-- Claim C9: starting from a fresh sensor, after any sequence of steps
the recent window has length at most 10; each step appends the newly
emitted value on the right, and when the window is full the head (oldest
entry) is the one evicted, preserving insertion order. -/
theorem window_bounded_fifo (cfg : SensorConfig) (inputs : List (ℚ × RandInput))
    (s : SensorState) (dt : ℚ) (r : RandInput) :
    ((runSteps (initSensor cfg) inputs).2).last_values.length ≤ 10 ∧
    ((s.step dt r).2).last_values = pushWin s.last_values ((s.step dt r).1) ∧
    (s.last_values.length < 10 →
      ((s.step dt r).2).last_values = s.last_values ++ [(s.step dt r).1]) ∧
    (s.last_values.length = 10 →
      ((s.step dt r).2).last_values = s.last_values.tail ++ [(s.step dt r).1]) := by
  refine ⟨runSteps_window_le inputs _ (by simp [initSensor]), step_window s dt r, ?_, ?_⟩
  · intro h
    rw [step_window, pushWin_of_lt _ _ h]
  · intro h
    rw [step_window, pushWin_of_full _ _ h]

/-- Witness for C9: a three-element window grows by appending, and a full
ten-element window evicts its oldest entry. -/
theorem window_bounded_fifo_witness :
    (({ initSensor gyroCfg with last_values := [1, 2, 3] } : SensorState).last_values.length < 10 ∧
      ((({ initSensor gyroCfg with last_values := [1, 2, 3] } : SensorState).step 1 noNoise).2).last_values =
        [1, 2, 3] ++ [(({ initSensor gyroCfg with last_values := [1, 2, 3] } : SensorState).step 1 noNoise).1]) ∧
    (({ initSensor gyroCfg with last_values := [0, 1, 2, 3, 4, 5, 6, 7, 8, 9] } : SensorState).last_values.length = 10 ∧
      ((({ initSensor gyroCfg with last_values := [0, 1, 2, 3, 4, 5, 6, 7, 8, 9] } : SensorState).step 1 noNoise).2).last_values =
        [1, 2, 3, 4, 5, 6, 7, 8, 9] ++ [(({ initSensor gyroCfg with last_values := [0, 1, 2, 3, 4, 5, 6, 7, 8, 9] } : SensorState).step 1 noNoise).1]) := by
  constructor
  · exact ⟨by norm_num,
      (window_bounded_fifo gyroCfg [] _ 1 noNoise).2.2.1 (by norm_num)⟩
  · exact ⟨rfl,
      (window_bounded_fifo gyroCfg [] _ 1 noNoise).2.2.2 rfl⟩

/-! ## Claim C8 -/

/-- The invariant after `reset_faults`: the fault machinery is clear and
the nominal is fixed. -/
def CalmAt (nom : ℚ) (s : SensorState) : Prop :=
  s.nominal = nom ∧ s.forced_fault = none ∧ s.drift_rate = 0 ∧ s.stuck_value = none

theorem calm_step (nom : ℚ) (s : SensorState) (h : CalmAt nom s) (dt : ℚ)
    (r : RandInput) :
    (s.step dt r).1 = nom + r.noise ∧ CalmAt nom ((s.step dt r).2) := by
  obtain ⟨hn, hf, hd, hs⟩ := h
  constructor
  · simp [SensorState.step, hs, hf, hd, hn]
  · exact ⟨by rw [step_nominal, hn], by rw [step_forced_fault, hf], by
      simp [SensorState.step, hs, hf, hd], by
      simp [SensorState.step, hs, hf]⟩

theorem calm_runSteps (inputs : List (ℚ × RandInput)) :
    ∀ s : SensorState, ∀ nom : ℚ, CalmAt nom s → CalmAt nom ((runSteps s inputs).2) := by
  induction inputs with
  | nil => intro s nom h; exact h
  | cons i is ih =>
      intro s nom h
      rw [runSteps_cons]
      exact ih _ _ (calm_step nom s h i.1 i.2).2

/-- Claim C8: `reset_faults` sets the fault mode to `None`, the drift rate
to 0 and the stuck value to `None` (one pure state update), and from the
reset state every subsequent step — after any number of intermediate
steps — returns nominal plus that step's baseline noise draw only: the
drift term contributes 0. -/
theorem reset_faults_restores_nominal (s : SensorState)
    (inputs : List (ℚ × RandInput)) (dt : ℚ) (r : RandInput) :
    s.reset_faults.forced_fault = none ∧
    s.reset_faults.drift_rate = 0 ∧
    s.reset_faults.stuck_value = none ∧
    (((runSteps s.reset_faults inputs).2).step dt r).1 = s.nominal + r.noise := by
  refine ⟨rfl, rfl, rfl, ?_⟩
  have hc : CalmAt s.nominal s.reset_faults := ⟨rfl, rfl, rfl, rfl⟩
  exact (calm_step s.nominal _ (calm_runSteps inputs _ _ hc) dt r).1

/-! ## Claim C10 -/

/-- Claim C10: on the first step after the drift fault is injected the
drift rate is still 0 when the value is computed, so the returned value is
nominal plus baseline noise with no drift contribution; `drift_rate` is
set to `0.1 * tol` only afterwards, and the drift term shows up from the
following step on. -/
theorem drift_activation_delayed (s : SensorState) (dt dt2 : ℚ)
    (r r2 : RandInput) (h1 : s.stuck_value = none) (h2 : s.drift_rate = 0)
    (h3 : s.forced_fault = some "drift") :
    (s.step dt r).1 = s.nominal + r.noise ∧
    ((s.step dt r).2).drift_rate = 1 / 10 * s.tol ∧
    (((s.step dt r).2).step dt2 r2).1 =
      s.nominal + 1 / 10 * s.tol * (s.time + dt + dt2) + r2.noise := by
  refine ⟨by simp [SensorState.step, h1, h2, h3], by simp [SensorState.step, h1, h3], ?_⟩
  have hs2 : (s.step dt r).2 =
      { s with time := s.time + dt, value := s.nominal + r.noise, drift_rate := 1 / 10 * s.tol, last_values := pushWin s.last_values (s.nominal + r.noise) } := by
    simp [SensorState.step, h1, h2, h3]
  rw [hs2]
  simp [SensorState.step, h3, h1]

/-- Witness for C10: the gyro sensor right after drift injection, stepped
twice with zero noise: first value 0 (no drift), drift rate becomes 0.2,
second value `0.2 * 2`. -/
theorem drift_activation_delayed_witness :
    ((apply_fault (initSensor gyroCfg) "drift").stuck_value = none ∧
      (apply_fault (initSensor gyroCfg) "drift").drift_rate = 0 ∧
      (apply_fault (initSensor gyroCfg) "drift").forced_fault = some "drift") ∧
    ((apply_fault (initSensor gyroCfg) "drift").step 1 noNoise).1 =
      (apply_fault (initSensor gyroCfg) "drift").nominal + noNoise.noise ∧
    (((apply_fault (initSensor gyroCfg) "drift").step 1 noNoise).2.step 1 noNoise).1 =
      (apply_fault (initSensor gyroCfg) "drift").nominal +
        1 / 10 * (apply_fault (initSensor gyroCfg) "drift").tol *
          ((apply_fault (initSensor gyroCfg) "drift").time + 1 + 1) + noNoise.noise := by
  have h := drift_activation_delayed (apply_fault (initSensor gyroCfg) "drift") 1 1
    noNoise noNoise (by simp [apply_fault, initSensor])
    (by simp [apply_fault, initSensor]) (by simp [apply_fault, initSensor])
  exact ⟨⟨by simp [apply_fault, initSensor], by simp [apply_fault, initSensor],
    by simp [apply_fault, initSensor]⟩, h.1, h.2.2⟩

/-! ## Claim C3 -/

/-- The gyro sensor with the stuck fault injected and then stepped six
times: the injection step draws noise 1 (so its sample is 1, not the
nominal 0), the five following steps return the latched nominal. -/
def stuckRun : ℚ × SensorState :=
  runSteps (apply_fault (initSensor gyroCfg) "stuck")
    [(1, unitNoise), (1, noNoise), (1, noNoise), (1, noNoise), (1, noNoise), (1, noNoise)]

/-- Counterexample to C3 as stated: after injecting the stuck fault into
the fresh gyro sensor and performing 6 steps, `bite_check` returns OK, not
E03 — the window still contains the noisy sample emitted on the latching
step, so the variance is not below 1e-6. -/
theorem stuck_six_steps_not_e03 :
    stuckRun.2.stuck_value = some 0 ∧
    (bite_check stuckRun.2 stuckRun.1).1 = "OK" ∧
    (bite_check stuckRun.2 stuckRun.1).1 ≠ "E03" := by
  have h : bite_check stuckRun.2 stuckRun.1 = ("OK", "Passed BITE") := by
    simp [stuckRun, runSteps, SensorState.step, apply_fault, initSensor, gyroCfg,
      pushWin, noNoise, unitNoise, bite_check, bite_core, recentOf, meanQ,
      varianceQ, stdLt, stdGt]
    norm_num [abs_of_nonneg]
  refine ⟨?_, by rw [h], by rw [h]; simp⟩
  simp [stuckRun, runSteps, SensorState.step, apply_fault, initSensor, gyroCfg,
    pushWin, noNoise, unitNoise]

/-- Claim C3, amended: after injecting the stuck fault and performing one
step, `stuck_value` equals nominal; every step while
`stuck_value = some nominal` holds returns exactly nominal and appends it
to the window; and `bite_check` returns E03 as soon as the window consists
of at least 6 entries all equal to nominal (with `tol ≥ 0`) — which needs
the pre-latch samples to have left the 10-element window, not merely 6
steps after the injection. -/
theorem stuck_fault_behavior :
    (∀ (s : SensorState) (dt : ℚ) (r : RandInput), s.stuck_value = none →
      s.forced_fault = some "stuck" →
      ((s.step dt r).2).stuck_value = some s.nominal) ∧
    (∀ (s : SensorState) (dt : ℚ) (r : RandInput), s.stuck_value = some s.nominal →
      (s.step dt r).1 = s.nominal ∧
      ((s.step dt r).2).last_values = pushWin s.last_values s.nominal ∧
      ((s.step dt r).2).stuck_value = some s.nominal) ∧
    (∀ (s : SensorState) (n : ℕ), 6 ≤ n → 0 ≤ s.tol →
      s.last_values = List.replicate n s.nominal →
      (bite_check s s.nominal).1 = "E03") := by
  refine ⟨?_, ?_, ?_⟩
  · intro s dt r hsv hf
    simp [SensorState.step, hsv, hf]
  · intro s dt r hsv
    refine ⟨?_, ?_, ?_⟩ <;> simp [SensorState.step, hsv]
  · intro s n h6 ht hw
    have hne : n ≠ 0 := by omega
    have hr : recentOf s s.nominal = List.replicate n s.nominal := by
      rw [recentOf, hw, if_neg]
      simp [List.isEmpty_iff, hne]
    unfold bite_check bite_core
    rw [hr]
    rw [if_neg (by rw [sub_self, abs_zero]; push_neg; linarith),
      if_pos ⟨by simp [List.length_replicate]; omega,
        by rw [stdLt, varianceQ_replicate]; norm_num⟩]

/-- Witness for the amended C3: the fresh gyro sensor with the stuck fault
latches nominal on the first step; a sensor with latched nominal emits
nominal; and a window of six nominal copies classifies E03. -/
theorem stuck_fault_behavior_witness :
    ((apply_fault (initSensor gyroCfg) "stuck").stuck_value = none ∧
      (apply_fault (initSensor gyroCfg) "stuck").forced_fault = some "stuck" ∧
      (((apply_fault (initSensor gyroCfg) "stuck").step 1 unitNoise).2).stuck_value =
        some (apply_fault (initSensor gyroCfg) "stuck").nominal) ∧
    (({ initSensor gyroCfg with stuck_value := some 0 } : SensorState).step 1 noNoise).1 =
      ({ initSensor gyroCfg with stuck_value := some 0 } : SensorState).nominal ∧
    (0 : ℚ) ≤ ({ initSensor gyroCfg with last_values := List.replicate 6 (0 : ℚ) } : SensorState).tol ∧
    (bite_check ({ initSensor gyroCfg with last_values := List.replicate 6 (0 : ℚ) } : SensorState)
      ({ initSensor gyroCfg with last_values := List.replicate 6 (0 : ℚ) } : SensorState).nominal).1 = "E03" := by
  refine ⟨⟨by simp [apply_fault, initSensor], by simp [apply_fault, initSensor], ?_⟩, ?_, ?_, ?_⟩
  · exact stuck_fault_behavior.1 _ 1 unitNoise (by simp [apply_fault, initSensor])
      (by simp [apply_fault, initSensor])
  · exact (stuck_fault_behavior.2.1 _ 1 noNoise (by simp [initSensor, gyroCfg])).1
  · norm_num [initSensor, gyroCfg]
  · exact stuck_fault_behavior.2.2 _ 6 le_rfl (by norm_num [initSensor, gyroCfg])
      (by simp [initSensor, gyroCfg])

/-! ## Claim C4 -/

/-- A fault record as `log_bite` would build it. -/
def sampleFaultRow : Row :=
  ["2024-01-01 00:00:00", "S1", "Altitude Sensor", "E01", "Sensor Out-of-Range",
   "HIGH", "12000.000", "Value 12000.000 outside safe range (nom 10000.0)"]

/-- Claim C4 is contradicted by the code: starting with no log file, the
application constructor pre-creates an empty `fault_log.csv`, so when the
first (and every later) record is appended `append_log_csv` finds the file
existing and never writes the header — the persisted log contains zero
header rows, while the claim (and `append_log_csv`'s own header logic)
calls for exactly one. -/
theorem log_header_never_written :
    headerCount (ensure_log_file none) = 0 ∧
    headerCount (append_log_csv (ensure_log_file none) sampleFaultRow) = 0 ∧
    headerCount (append_log_csv (append_log_csv (ensure_log_file none) sampleFaultRow)
      sampleFaultRow) = 0 ∧
    headerCount (append_log_csv none sampleFaultRow) = 1 := by
  refine ⟨rfl, ?_, ?_, ?_⟩ <;> decide

/-! ## Claim C5 -/

/-- Counterexample to C5 as stated: the fresh altitude sensor classifies
OK on its latest buffered value 10000, yet the operator-triggered BITE run
(`run_bite_all`) still appends one record for it — `log_bite` is called
unconditionally there, with no `code != "OK"` guard. -/
theorem run_bite_logs_ok_result :
    (bite_check (initSensor altCfg) 10000).1 = "OK" ∧
    (run_bite_one "2024-01-01 00:00:00" (initSensor altCfg) [(0, 10000)]).length = 1 := by
  constructor
  · have hr : recentOf (initSensor altCfg) 10000 = [10000] := by
      norm_num [recentOf, initSensor]
    rw [bite_check, hr]
    rw [bite_core, if_neg (by norm_num [initSensor, altCfg]),
      if_neg (by norm_num),
      if_neg (by rw [stdGt, varianceQ_singleton]; push_neg
                 exact ⟨by norm_num [initSensor, altCfg], by norm_num [initSensor, altCfg]⟩),
      if_neg (by rw [meanQ_singleton]; norm_num [initSensor, altCfg]),
      if_neg (by simp)]
  · rfl

/-- Claim C5, amended: the per-tick classification of `update_loop`
appends exactly one record when the result is not OK and none when it is
OK; the operator-triggered BITE run instead appends exactly one record per
sensor with buffered data regardless of the result — including OK — and
none for a sensor with an empty buffer. -/
theorem fault_logging_policy :
    (∀ (ts : String) (s : SensorState) (dt : ℚ) (r : RandInput),
      (tick_sensor_log ts s dt r).length =
        if (bite_check (s.step dt r).2 (s.step dt r).1).1 ≠ "OK" then 1 else 0) ∧
    (∀ (ts : String) (s : SensorState) (buff : List (ℚ × ℚ)), buff ≠ [] →
      (run_bite_one ts s buff).length = 1) ∧
    (∀ (ts : String) (s : SensorState), run_bite_one ts s [] = []) := by
  refine ⟨?_, ?_, fun _ _ => rfl⟩
  · intro ts s dt r
    rw [tick_sensor_log]
    split <;> rfl
  · intro ts s buff hb
    rw [run_bite_one]
    cases hg : buff.getLast? with
    | none => exact absurd (List.getLast?_eq_none_iff.mp hg) hb
    | some tv => rfl

/-- Witness for the amended C5: a tick of the fresh altitude sensor under
the out-of-range fault appends one record, and a BITE run over a nonempty
buffer appends one record. -/
theorem fault_logging_policy_witness :
    (tick_sensor_log "ts" (apply_fault (initSensor altCfg) "out_of_range") 1 noNoise).length =
      (if (bite_check ((apply_fault (initSensor altCfg) "out_of_range").step 1 noNoise).2
        ((apply_fault (initSensor altCfg) "out_of_range").step 1 noNoise).1).1 ≠ "OK" then 1 else 0) ∧
    ([((0 : ℚ), (250 : ℚ))] ≠ ([] : List (ℚ × ℚ)) ∧
      (run_bite_one "ts" (initSensor ⟨"S2", "Airspeed Sensor", 250, 15⟩) [(0, 250)]).length = 1) := by
  exact ⟨fault_logging_policy.1 "ts" _ 1 noNoise,
    by simp, fault_logging_policy.2.1 "ts" _ [(0, 250)] (by simp)⟩

/-! ## Claim C6 -/

/-- The altitude sensor after: inject stuck, one step (latching
`stuck_value`), then inject `out_of_range`. -/
def stuckThenOOR : SensorState :=
  apply_fault ((apply_fault (initSensor altCfg) "stuck").step 1 noNoise).2 "out_of_range"

/-- Counterexample to C6 as stated: after the stuck fault has latched,
injecting `out_of_range` sets `forced_fault` to the new mode but the next
step still returns the latched value 10000 — not the new mode's forced
value `nominal + 10 * tol = 12000` — so the old perturbation, not only the
new one, stays in effect. -/
theorem new_fault_keeps_stuck_value :
    stuckThenOOR.forced_fault = some "out_of_range" ∧
    stuckThenOOR.stuck_value = some 10000 ∧
    (stuckThenOOR.step 1 noNoise).1 = 10000 ∧
    stuckThenOOR.nominal + 10 * stuckThenOOR.tol = 12000 := by
  refine ⟨?_, ?_, ?_, ?_⟩
  · simp [stuckThenOOR, apply_fault, initSensor, altCfg, SensorState.step, pushWin, noNoise]
  · simp [stuckThenOOR, apply_fault, initSensor, altCfg, SensorState.step, pushWin, noNoise]
  · simp [stuckThenOOR, apply_fault, initSensor, altCfg, SensorState.step, pushWin, noNoise]
  · simp [stuckThenOOR, apply_fault, step_nominal, step_tol, initSensor, altCfg]
    norm_num

/-- Claim C6, amended: the `forced_fault` field holds at most one mode at
a time (injection overwrites it), but injecting a new mode does not clear
the residual state of a previous one: `drift_rate` and `stuck_value` are
preserved, and a latched stuck value keeps overriding the output of every
mode until faults are reset; only `apply_fault` with "none" (i.e.
`reset_faults`) clears them. -/
theorem apply_fault_keeps_residual_state :
    (∀ (s : SensorState) (ft : String), ft ≠ "none" →
      (apply_fault s ft).forced_fault = some ft ∧
      (apply_fault s ft).drift_rate = s.drift_rate ∧
      (apply_fault s ft).stuck_value = s.stuck_value) ∧
    (∀ (s : SensorState) (ft : String) (dt : ℚ) (r : RandInput) (v : ℚ),
      ft ≠ "none" → s.stuck_value = some v →
      ((apply_fault s ft).step dt r).1 = v) ∧
    (∀ s : SensorState, apply_fault s "none" = s.reset_faults) := by
  refine ⟨?_, ?_, fun s => by simp [apply_fault]⟩
  · intro s ft hft
    refine ⟨?_, ?_, ?_⟩ <;> simp [apply_fault, hft]
  · intro s ft dt r v hft hv
    simp [apply_fault, hft, SensorState.step, hv]

/-- Witness for the amended C6 at the gyro sensor: injecting "noisy" over
a latched stuck value keeps the latch and the next step returns it. -/
theorem apply_fault_keeps_residual_state_witness :
    ("noisy" ≠ "none" ∧
      (apply_fault ({ initSensor gyroCfg with stuck_value := some 7 } : SensorState) "noisy").forced_fault = some "noisy" ∧
      (apply_fault ({ initSensor gyroCfg with stuck_value := some 7 } : SensorState) "noisy").stuck_value = some 7) ∧
    ((apply_fault ({ initSensor gyroCfg with stuck_value := some 7 } : SensorState) "noisy").step 1 unitNoise).1 = 7 ∧
    apply_fault ({ initSensor gyroCfg with stuck_value := some 7 } : SensorState) "none" =
      ({ initSensor gyroCfg with stuck_value := some 7 } : SensorState).reset_faults := by
  refine ⟨⟨by simp, ?_, ?_⟩, ?_, apply_fault_keeps_residual_state.2.2 _⟩
  · exact (apply_fault_keeps_residual_state.1 _ "noisy" (by simp)).1
  · exact (apply_fault_keeps_residual_state.1 _ "noisy" (by simp)).2.2.trans (by simp)
  · exact apply_fault_keeps_residual_state.2.1 _ "noisy" 1 unitNoise 7 (by simp) (by simp)

/-! ## Claim C7 -/

/-- Claim C7: with the out-of-range fault active and no stuck value
latched, `step` returns exactly `nominal + 10 * tol` — the noise draw is
overridden, not added — and `bite_check` on that value returns E01 with a
detail message containing "outside safe range" (for a sensor with positive
tolerance, as all roster sensors have). -/
theorem out_of_range_fault_step (s : SensorState) (dt : ℚ) (r : RandInput)
    (h1 : s.stuck_value = none) (h2 : s.forced_fault = some "out_of_range")
    (h3 : 0 < s.tol) :
    (s.step dt r).1 = s.nominal + 10 * s.tol ∧
    (bite_check (s.step dt r).2 (s.step dt r).1).1 = "E01" ∧
    ∃ pre post : String,
      (bite_check (s.step dt r).2 (s.step dt r).1).2 =
        pre ++ ("outside safe range" ++ post) := by
  have hv : (s.step dt r).1 = s.nominal + 10 * s.tol := by
    simp [SensorState.step, h1, h2]
  have habs : 5 * ((s.step dt r).2).tol < |(s.step dt r).1 - ((s.step dt r).2).nominal| := by
    rw [hv, step_nominal, step_tol,
      show s.nominal + 10 * s.tol - s.nominal = 10 * s.tol by ring,
      abs_of_pos (by linarith)]
    linarith
  have hb : bite_check (s.step dt r).2 ((s.step dt r).1) =
      ("E01", "Value " ++ pyFmt2 ((s.step dt r).1) ++ " outside safe range (nom " ++
        pyFmtNum (((s.step dt r).2).nominal) ++ ")") := by
    unfold bite_check bite_core
    rw [if_pos habs]
  refine ⟨hv, by rw [hb], ?_⟩
  refine ⟨"Value " ++ pyFmt2 ((s.step dt r).1) ++ " ",
    " (nom " ++ pyFmtNum (((s.step dt r).2).nominal) ++ ")", ?_⟩
  rw [hb]
  simp only [String.append_assoc]
  rfl

/-- Witness for C7 at the altitude sensor (`nominal = 10000`,
`tol = 200`): the forced value is exactly 12000 and classifies E01. -/
theorem out_of_range_fault_step_witness :
    ((apply_fault (initSensor altCfg) "out_of_range").stuck_value = none ∧
      (apply_fault (initSensor altCfg) "out_of_range").forced_fault = some "out_of_range" ∧
      0 < (apply_fault (initSensor altCfg) "out_of_range").tol) ∧
    ((apply_fault (initSensor altCfg) "out_of_range").step 1 unitNoise).1 =
      (apply_fault (initSensor altCfg) "out_of_range").nominal +
        10 * (apply_fault (initSensor altCfg) "out_of_range").tol ∧
    ((apply_fault (initSensor altCfg) "out_of_range").step 1 unitNoise).1 = 12000 ∧
    (bite_check ((apply_fault (initSensor altCfg) "out_of_range").step 1 unitNoise).2
      ((apply_fault (initSensor altCfg) "out_of_range").step 1 unitNoise).1).1 = "E01" := by
  have h := out_of_range_fault_step (apply_fault (initSensor altCfg) "out_of_range") 1
    unitNoise (by simp [apply_fault, initSensor]) (by simp [apply_fault, initSensor])
    (by simp [apply_fault, initSensor, altCfg])
  refine ⟨⟨by simp [apply_fault, initSensor], by simp [apply_fault, initSensor],
    by simp [apply_fault, initSensor, altCfg]⟩, h.1, ?_, h.2.1⟩
  rw [h.1]
  simp [apply_fault, initSensor, altCfg]
  norm_num

end Avionics
